import Mathlib

/- Verification of the CoastalClear backend (booking and feedback platform for
beach-cleanup volunteer events) against its specification.  The definitions
below are a shallow embedding of the Python source under src/backend: the
persistence store is modelled as explicit lists of records, SQLAlchemy
`query(...).filter(...).first()` as `List.find?`, and the FastAPI handlers as
pure functions from the store (plus request data) to a result together with
the updated store.  Real-number arithmetic of the score engine is modelled
with rationals. -/

namespace CoastalClear

/-- A HistoricalMonthlyFlotsam row (models.py): one aggregate debris weight
per (location, calendar month). -/
structure HistoricalMonthlyFlotsam where
  id : Nat
  month : Nat
  weight : ℚ
  location_id : Nat
  deriving Repr, DecidableEq

/-- The month and day components of a Python `datetime.date`; the score
engine reads only `query_date.month` and `query_date.day`. -/
structure PyDate where
  month : Nat
  day : Nat
  deriving Repr, DecidableEq

/-- The `month_days` dictionary literal in `get_cleanliness_score`
(locations.py): fixed Gregorian month lengths with February always 28.
Lookup of a key outside 1..12 raises `KeyError` in Python, modelled as
`none`. -/
def month_days (m : Nat) : Option Nat :=
  match m with
  | 1 => some 31
  | 2 => some 28
  | 3 => some 31
  | 4 => some 30
  | 5 => some 31
  | 6 => some 30
  | 7 => some 31
  | 8 => some 31
  | 9 => some 30
  | 10 => some 31
  | 11 => some 30
  | 12 => some 31
  | _ => none

/-- The previous-month computation of `get_cleanliness_score` (locations.py
line 37): `prev_mth_no = (12 + curr_mth_no - 1) % 12`. -/
def prev_mth_no (curr_mth_no : Nat) : Nat :=
  (12 + curr_mth_no - 1) % 12

/-- The query
`db.query(HistoricalMonthlyFlotsam).filter(location_id == loc, month == m).first()`. -/
def findRecord (db : List HistoricalMonthlyFlotsam) (loc m : Nat) :
    Option HistoricalMonthlyFlotsam :=
  db.find? (fun r => r.location_id == loc && r.month == m)

/-- `get_cleanliness_score` (locations.py): fetches the records for the
query date's month and for `prev_mth_no`, returns `-1` if either is
missing, and otherwise interpolates the two weights.  `none` models an
uncaught `KeyError` from the `month_days` dictionary. -/
def get_cleanliness_score (db : List HistoricalMonthlyFlotsam)
    (location_id : Nat) (query_date : PyDate) : Option ℚ :=
  let curr_no := query_date.month
  let prev_no := prev_mth_no curr_no
  match findRecord db location_id curr_no, findRecord db location_id prev_no with
  | some curr_rec, some prev_rec =>
    match month_days curr_no, month_days prev_no with
    | some daysM, some daysP =>
      let d : ℚ := query_date.day
      let remaining : ℚ := (daysM : ℚ) - d
      some ((remaining / (daysP : ℚ)) * prev_rec.weight + (d / (daysM : ℚ)) * curr_rec.weight)
    | _, _ => none
  | _, _ => some (-1)

/-- Modelled from the spec: the specification's preceding-month formula
`P = ((M - 2) mod 12) + 1` (December precedes January), written with integer
`mod` so that `M = 1` yields `12`; stated here only to be compared with the
source's `prev_mth_no`. -/
def spec_preceding_month (m : Nat) : Nat :=
  (((m : ℤ) - 2) % 12 + 1).toNat

/-- A concrete store for the score-engine claims: location 7 has the
record for December (weight 10) and for January (weight 20), exactly the
two records the spec requires for a January query date. -/
def scoreDb : List HistoricalMonthlyFlotsam :=
  [⟨1, 12, 10, 7⟩, ⟨2, 1, 20, 7⟩]

/-- If every stored record carries a calendar month of at least 1, a lookup
for month 0 finds nothing. -/
lemma findRecord_month_zero (db : List HistoricalMonthlyFlotsam) (loc : Nat)
    (hdb : ∀ r ∈ db, 1 ≤ r.month) : findRecord db loc 0 = none := by
  rw [findRecord, List.find?_eq_none]
  intro r hr
  simp only [Bool.and_eq_true, beq_iff_eq, not_and]
  intro _ h0
  have := hdb r hr
  omega

/-- For months 2 through 12 the source's previous-month computation agrees
with the specification's formula. -/
lemma prev_mth_no_eq_spec (m : Nat) (h2 : 2 ≤ m) (h12 : m ≤ 12) :
    prev_mth_no m = spec_preceding_month m := by
  interval_cases m <;> rfl

/-- C1: the claim states the preceding month is `((M - 2) mod 12) + 1`, with
December (12) preceding January.  The source computes
`(12 + M - 1) % 12`, which is `0` for `M = 1`, so for a January query date
the second record fetched is the one for month 0, not month 12: on a store
holding exactly the January and December records for location 7, the
month-0 fetch finds nothing and the score is the missing-data sentinel. -/
theorem prev_month_fetch_bug :
    prev_mth_no 1 = 0 ∧
    spec_preceding_month 1 = 12 ∧
    prev_mth_no 1 ≠ spec_preceding_month 1 ∧
    findRecord scoreDb 7 1 = some ⟨2, 1, 20, 7⟩ ∧
    findRecord scoreDb 7 12 = some ⟨1, 12, 10, 7⟩ ∧
    findRecord scoreDb 7 (prev_mth_no 1) = none ∧
    get_cleanliness_score scoreDb 7 ⟨1, 15⟩ = some (-1) :=
  ⟨rfl, rfl, by decide, rfl, rfl, rfl, rfl⟩

/-- C2: on January 15 with both required records present (months 1 and 12
for location 7, weights 20 and 10), the claim's formula gives
`((31 - 15) / 31) * 10 + (15 / 31) * 20`, but the source returns the
sentinel `-1` because its previous-month computation yields 0 (see C1). -/
theorem score_january_formula_bug :
    findRecord scoreDb 7 1 = some ⟨2, 1, 20, 7⟩ ∧
    findRecord scoreDb 7 (spec_preceding_month 1) = some ⟨1, 12, 10, 7⟩ ∧
    get_cleanliness_score scoreDb 7 ⟨1, 15⟩ = some (-1) ∧
    (-1 : ℚ) ≠ ((31 - 15) / 31) * 10 + (15 / 31) * 20 :=
  ⟨rfl, rfl, rfl, by norm_num⟩

/-- C3: for any store whose records all carry calendar months 1..12 and any
query date, if either the current-month record or the (spec-defined)
preceding-month record is absent for the location, the score computation
returns the sentinel `-1` as a normal value. -/
theorem score_missing_sentinel (db : List HistoricalMonthlyFlotsam)
    (loc : Nat) (d : PyDate)
    (hdb : ∀ r ∈ db, 1 ≤ r.month ∧ r.month ≤ 12)
    (hm1 : 1 ≤ d.month) (hm12 : d.month ≤ 12)
    (habs : findRecord db loc d.month = none ∨
            findRecord db loc (spec_preceding_month d.month) = none) :
    get_cleanliness_score db loc d = some (-1) := by
  obtain ⟨M, D⟩ := d
  simp only at hm1 hm12 habs
  have hkey : findRecord db loc M = none ∨
      findRecord db loc (prev_mth_no M) = none := by
    rcases habs with h | h
    · exact Or.inl h
    · by_cases h1 : M = 1
      · subst h1
        exact Or.inr (findRecord_month_zero db loc (fun r hr => (hdb r hr).1))
      · right
        rwa [prev_mth_no_eq_spec M (by omega) hm12]
  rcases hc : findRecord db loc M with _ | cr <;>
    rcases hp : findRecord db loc (prev_mth_no M) with _ | pr
  · simp only [get_cleanliness_score, hc, hp]
  · simp only [get_cleanliness_score, hc, hp]
  · simp only [get_cleanliness_score, hc, hp]
  · simp [hc, hp] at hkey

/-- Witness for C3 at a concrete input: location 7 has no record for month
5, so a query on May 3 returns the sentinel. -/
theorem score_missing_sentinel_witness :
    get_cleanliness_score scoreDb 7 ⟨5, 3⟩ = some (-1) :=
  score_missing_sentinel scoreDb 7 ⟨5, 3⟩ (by decide) (by decide) (by decide)
    (Or.inl (by decide))

/-- A structured failure response (exceptions.py). -/
inductive ApiError where
  | bookingNotFound
  | bookingModifyUnauthorized
  | locationNotFound
  | emailUsed
  | invalidCredentials
  deriving Repr, DecidableEq

/-- The HTTP status code each failure response carries (exceptions.py). -/
def ApiError.statusCode : ApiError → Nat
  | .bookingNotFound => 404
  | .bookingModifyUnauthorized => 403
  | .locationNotFound => 404
  | .emailUsed => 400
  | .invalidCredentials => 401

/-- A Booking row (models.py).  Calendar dates are opaque day numbers, the
string columns are kept as strings, `collected_weight` is the nullable
float column, and `user_id` is the nullable owner foreign key. -/
structure Booking where
  id : Nat
  date : Int
  start_time : String
  end_time : String
  est_volunteers : String
  num_volunteers : Int
  status : String
  collected_weight : Option ℚ
  attendance : Int
  external : Bool
  user_id : Option Nat
  location_id : Nat
  deriving Repr, DecidableEq

/-- The BookingUpdate request schema (schemas.py). -/
structure BookingUpdate where
  date : Int
  start_time : String
  end_time : String
  est_volunteers : String
  num_volunteers : Int
  status : String
  collected_weight : Option ℚ
  deriving Repr, DecidableEq

/-- The BookingCreate request schema (schemas.py). -/
structure BookingCreate where
  date : Int
  start_time : String
  end_time : String
  est_volunteers : String
  num_volunteers : Int
  location_id : Nat
  deriving Repr, DecidableEq

/-- A Location row (models.py); the geometry blob is opaque. -/
structure Location where
  id : Nat
  name : String
  cleanliness_score : Option ℚ
  geojson : String
  deriving Repr, DecidableEq

/-- Python truthiness of an `Optional[float]` value: `None` and `0.0` are
falsy, every other float is truthy.  This is the test the source applies to
`booking_new.collected_weight` (bookings.py line 131). -/
def pyTruthy (x : Option ℚ) : Bool :=
  match x with
  | none => false
  | some q => !(q == 0)

/-- `update_booking` (bookings.py) after the caller's identity has been
resolved to `caller_id`: looks the booking up by id, rejects a missing id
and a non-owner, and otherwise overwrites the mutable columns, the
collected weight only when the supplied value is truthy, and commits the
updated row back to the store. -/
def update_booking (db : List Booking) (caller_id booking_id : Nat)
    (booking_new : BookingUpdate) : Except ApiError Booking × List Booking :=
  match db.find? (fun b => b.id == booking_id) with
  | none => (Except.error ApiError.bookingNotFound, db)
  | some db_booking =>
    if db_booking.user_id != some caller_id then
      (Except.error ApiError.bookingModifyUnauthorized, db)
    else
      let b' : Booking :=
        { db_booking with
          date := booking_new.date
          start_time := booking_new.start_time
          end_time := booking_new.end_time
          est_volunteers := booking_new.est_volunteers
          num_volunteers := booking_new.num_volunteers
          status := booking_new.status
          collected_weight :=
            if pyTruthy booking_new.collected_weight then booking_new.collected_weight
            else db_booking.collected_weight }
      (Except.ok b', db.map (fun x => if x.id == booking_id then b' else x))

/-- `db_delete_booking` (bookings.py) after identity resolution: same
lookup and ownership check as update; on success the row is removed. -/
def db_delete_booking (db : List Booking) (caller_id booking_id : Nat) :
    Except ApiError Unit × List Booking :=
  match db.find? (fun b => b.id == booking_id) with
  | none => (Except.error ApiError.bookingNotFound, db)
  | some booking =>
    if booking.user_id != some caller_id then
      (Except.error ApiError.bookingModifyUnauthorized, db)
    else
      (Except.ok (), db.filter (fun x => !(x.id == booking_id)))

/-- `create_booking` (bookings.py) after identity resolution: requires the
referenced location to exist, then persists a new row with the caller as
owner, `external = false`, and the column defaults of models.py
(status "scheduled", attendance 0, collected weight null); `new_id` models
the store-assigned primary key. -/
def create_booking (locations : List Location) (bookings : List Booking)
    (user_id : Nat) (booking_new : BookingCreate) (new_id : Nat) :
    Except ApiError Booking × List Booking :=
  match locations.find? (fun l => l.id == booking_new.location_id) with
  | none => (Except.error ApiError.locationNotFound, bookings)
  | some _ =>
    let booking : Booking :=
      { id := new_id
        date := booking_new.date
        start_time := booking_new.start_time
        end_time := booking_new.end_time
        est_volunteers := booking_new.est_volunteers
        num_volunteers := booking_new.num_volunteers
        status := "scheduled"
        collected_weight := none
        attendance := 0
        external := false
        user_id := some user_id
        location_id := booking_new.location_id }
    (Except.ok booking, bookings ++ [booking])

/-- `increment_attendance` (bookings.py): open to any caller; rejects a
missing booking id and otherwise adds 1 to the attendance column and
commits. -/
def increment_attendance (db : List Booking) (booking_id : Nat) :
    Except ApiError Booking × List Booking :=
  match db.find? (fun b => b.id == booking_id) with
  | none => (Except.error ApiError.bookingNotFound, db)
  | some booking =>
    let b' : Booking := { booking with attendance := booking.attendance + 1 }
    (Except.ok b', db.map (fun x => if x.id == booking_id then b' else x))

/-- A Feedback row (models.py); `datetime` is an opaque instant on an
integer timeline (seconds), `coords` is the opaque JSONB blob. -/
structure Feedback where
  id : Nat
  datetime : Int
  title : String
  comment : Option String
  image_url : Option String
  coords : Option String
  location_id : Nat
  booking_id : Nat
  deriving Repr, DecidableEq

/-- The FeedbackCreate request schema (schemas.py lines 54-58): the caller
supplies only title, comment, image reference and coordinates — there is no
location field in the payload. -/
structure FeedbackCreate where
  title : String
  comment : Option String
  image_url : Option String
  coords : Option String
  deriving Repr, DecidableEq

/-- `create_feedback` (bookings.py): no identity required; requires the
referenced booking to exist, then persists a Feedback row stamped with the
current instant `now` and the booking's own `location_id`; `new_id` models
the store-assigned primary key. -/
def create_feedback (bookings : List Booking) (feedback_rows : List Feedback)
    (booking_id : Nat) (feedback : FeedbackCreate) (now : Int) (new_id : Nat) :
    Except ApiError Feedback × List Feedback :=
  match bookings.find? (fun b => b.id == booking_id) with
  | none => (Except.error ApiError.bookingNotFound, feedback_rows)
  | some booking =>
    let fb : Feedback :=
      { id := new_id
        datetime := now
        title := feedback.title
        comment := feedback.comment
        image_url := feedback.image_url
        coords := feedback.coords
        location_id := booking.location_id
        booking_id := booking_id }
    (Except.ok fb, feedback_rows ++ [fb])

/-- One day of the integer timeline, in seconds; `date_day` parameters are
midnight instants, so `date_day + timedelta(days=1)` is `d + daySecs`. -/
def daySecs : Int := 86400

/-- `read_feedback` (feedback.py): public listing of the feedback rows of a
location whose timestamp satisfies
`datetime <= date_day + 1 day` and `datetime >= date_day - 30 days`. -/
def read_feedback (feedback_rows : List Feedback) (location_id : Nat)
    (date_day : Int) : List Feedback :=
  feedback_rows.filter (fun f =>
    f.location_id == location_id
    && decide (f.datetime ≤ date_day + daySecs)
    && decide (f.datetime ≥ date_day - 30 * daySecs))

/-- A User row (models.py): nullable password hash, phone number and
display name, plus the third-party-provisioning and active flags. -/
structure User where
  id : Nat
  email : String
  hashed_pwd : Option String
  number : Option String
  name : Option String
  external_provider : Bool
  is_active : Bool
  deriving Repr, DecidableEq

/-- `get_user` (auth.py): looks a user up by email alone, with no regard to
how the account was provisioned. -/
def get_user (users : List User) (email : String) : Option User :=
  users.find? (fun u => u.email == email)

/-- `register_user` (main.py) combined with `create_user` (auth.py):
rejects the registration when `get_user` finds any account with the
submitted email, and otherwise persists a local account holding the hash
of the submitted password, with `external_provider` left at its
models.py default `false`; `new_id` models the store-assigned key. -/
def register_user (users : List User) (email : String) (name : Option String)
    (pwd_hash : String) (new_id : Nat) : Except ApiError User × List User :=
  match get_user users email with
  | some _ => (Except.error ApiError.emailUsed, users)
  | none =>
    let u : User :=
      { id := new_id
        email := email
        hashed_pwd := some pwd_hash
        number := none
        name := name
        external_provider := false
        is_active := true }
    (Except.ok u, users ++ [u])

/-- A concrete booking for witnesses and counterexamples: id 1, owned by
user 2, at location 7, with a stored collected weight of 5. -/
def bk1 : Booking :=
  ⟨1, 100, "09:00", "12:00", "10", 8, "scheduled", some 5, 0, false, some 2, 7⟩

/-- A concrete update request supplying the weight 0 (non-null). -/
def upd1 : BookingUpdate := ⟨101, "10:00", "13:00", "12", 9, "completed", some 0⟩

/-- A concrete update request supplying the weight 3. -/
def upd2 : BookingUpdate := ⟨101, "10:00", "13:00", "12", 9, "completed", some 3⟩

/-- A concrete location with id 7. -/
def loc7 : Location := ⟨7, "East Coast Park", none, "geo"⟩

/-- A concrete booking-creation request naming location 9. -/
def bc1 : BookingCreate := ⟨200, "08:00", "11:00", "15", 0, 9⟩

/-- A concrete feedback payload. -/
def fc1 : FeedbackCreate := ⟨"Great cleanup", some "much debris gone", none, none⟩

/-- A concrete feedback row at location 3 timestamped exactly one day
after the midnight instant 0. -/
def fbEdge : Feedback := ⟨1, 86400, "boundary row", none, none, none, 3, 1⟩

/-- A concrete third-party-provisioned account: no password hash,
`external_provider = true`. -/
def uExt : User := ⟨1, "volunteer at example dot com", none, none, none, true, true⟩

/-- C4: for every stored booking and every authenticated caller who is not
its owner, both the update and the delete operation fail with the
Forbidden (403) response and return the store unchanged. -/
theorem booking_modify_non_owner_forbidden (db : List Booking)
    (caller_id booking_id : Nat) (booking_new : BookingUpdate) (b : Booking)
    (hfind : db.find? (fun x => x.id == booking_id) = some b)
    (hown : b.user_id ≠ some caller_id) :
    update_booking db caller_id booking_id booking_new =
      (Except.error ApiError.bookingModifyUnauthorized, db) ∧
    db_delete_booking db caller_id booking_id =
      (Except.error ApiError.bookingModifyUnauthorized, db) ∧
    ApiError.bookingModifyUnauthorized.statusCode = 403 := by
  refine ⟨?_, ?_, rfl⟩
  · simp [update_booking, hfind, bne_iff_ne, hown]
  · simp [db_delete_booking, hfind, bne_iff_ne, hown]

/-- Witness for C4: caller 1 attempts to update and to delete booking 1,
which user 2 owns. -/
theorem booking_modify_non_owner_forbidden_witness :
    update_booking [bk1] 1 1 upd1 =
      (Except.error ApiError.bookingModifyUnauthorized, [bk1]) ∧
    db_delete_booking [bk1] 1 1 =
      (Except.error ApiError.bookingModifyUnauthorized, [bk1]) ∧
    ApiError.bookingModifyUnauthorized.statusCode = 403 :=
  booking_modify_non_owner_forbidden [bk1] 1 1 upd1 bk1 rfl (by decide)

/-- C5 counterexample: the claim says a caller-supplied non-null collected
weight always overwrites the stored one, but the owner supplying the
non-null weight 0 leaves the stored weight 5 in place, because the source
tests Python truthiness rather than nullness. -/
theorem collected_weight_zero_kept :
    upd1.collected_weight = some 0 ∧
    (update_booking [bk1] 2 1 upd1).1.toOption.map Booking.collected_weight
      = some (some 5) ∧
    some (some (5 : ℚ)) ≠ some (some (0 : ℚ)) :=
  ⟨rfl, by decide, by decide⟩

/-- C5 (amended): on a successful owner update, date, start and end time,
the volunteer counts and the status are overwritten unconditionally, and
the collected weight is overwritten exactly when the caller supplied a
non-null, non-zero value — a null or zero supplied weight leaves the stored
weight unchanged. -/
theorem update_booking_owner_semantics (db : List Booking)
    (caller_id booking_id : Nat) (booking_new : BookingUpdate) (b : Booking)
    (hfind : db.find? (fun x => x.id == booking_id) = some b)
    (hown : b.user_id = some caller_id) :
    update_booking db caller_id booking_id booking_new =
      (let u : Booking :=
        { b with
          date := booking_new.date
          start_time := booking_new.start_time
          end_time := booking_new.end_time
          est_volunteers := booking_new.est_volunteers
          num_volunteers := booking_new.num_volunteers
          status := booking_new.status
          collected_weight :=
            if booking_new.collected_weight = none ∨ booking_new.collected_weight = some 0
            then b.collected_weight else booking_new.collected_weight };
       (Except.ok u, db.map (fun x => if x.id == booking_id then u else x))) := by
  have htruth :
      (if pyTruthy booking_new.collected_weight then booking_new.collected_weight
       else b.collected_weight)
      = (if booking_new.collected_weight = none ∨ booking_new.collected_weight = some 0
         then b.collected_weight else booking_new.collected_weight) := by
    rcases hw : booking_new.collected_weight with _ | q
    · simp [pyTruthy]
    · by_cases hq : q = 0 <;> simp [pyTruthy, hq]
  simp [update_booking, hfind, hown, htruth]

/-- Witness for C5: owner 2 updates booking 1 supplying the weight 3,
which overwrites the stored weight. -/
theorem update_booking_owner_semantics_witness :
    update_booking [bk1] 2 1 upd2 =
      (let u : Booking :=
        { bk1 with
          date := upd2.date
          start_time := upd2.start_time
          end_time := upd2.end_time
          est_volunteers := upd2.est_volunteers
          num_volunteers := upd2.num_volunteers
          status := upd2.status
          collected_weight :=
            if upd2.collected_weight = none ∨ upd2.collected_weight = some 0
            then bk1.collected_weight else upd2.collected_weight };
       (Except.ok u, [bk1].map (fun x => if x.id == 1 then u else x))) :=
  update_booking_owner_semantics [bk1] 2 1 upd2 bk1 rfl rfl

/-- C6: creating a booking whose location id matches no stored location
fails with the LocationNotFound (404) response and adds no booking row. -/
theorem create_booking_missing_location (locations : List Location)
    (bookings : List Booking) (user_id : Nat) (booking_new : BookingCreate)
    (new_id : Nat)
    (habs : locations.find? (fun l => l.id == booking_new.location_id) = none) :
    create_booking locations bookings user_id booking_new new_id =
      (Except.error ApiError.locationNotFound, bookings) ∧
    ApiError.locationNotFound.statusCode = 404 := by
  refine ⟨?_, rfl⟩
  simp [create_booking, habs]

/-- Witness for C6: the store holds only location 7, and the request
names location 9. -/
theorem create_booking_missing_location_witness :
    create_booking [loc7] [bk1] 2 bc1 5 =
      (Except.error ApiError.locationNotFound, [bk1]) ∧
    ApiError.locationNotFound.statusCode = 404 :=
  create_booking_missing_location [loc7] [bk1] 2 bc1 5 rfl

/-- C7: the attendance-increment operation fails with the
BookingNotFound (404) response, leaving the store unchanged, when no
booking with the id exists, and otherwise adds exactly 1 to that booking's
attendance counter — every other field untouched — returning the updated
row and committing it back to the store. -/
theorem increment_attendance_spec (db : List Booking) (booking_id : Nat) :
    (db.find? (fun x => x.id == booking_id) = none →
      increment_attendance db booking_id =
        (Except.error ApiError.bookingNotFound, db) ∧
      ApiError.bookingNotFound.statusCode = 404) ∧
    (∀ b, db.find? (fun x => x.id == booking_id) = some b →
      increment_attendance db booking_id =
        (Except.ok { b with attendance := b.attendance + 1 },
         db.map (fun x =>
           if x.id == booking_id then { b with attendance := b.attendance + 1 }
           else x))) := by
  constructor
  · intro h
    exact ⟨by simp [increment_attendance, h], rfl⟩
  · intro b h
    simp [increment_attendance, h]

/-- Witness for C7: incrementing booking 1 succeeds with the counter at
0 + 1; incrementing the absent id 3 fails with the 404 response. -/
theorem increment_attendance_spec_witness :
    increment_attendance [bk1] 1 =
      (Except.ok { bk1 with attendance := bk1.attendance + 1 },
       [bk1].map (fun x =>
         if x.id == 1 then { bk1 with attendance := bk1.attendance + 1 } else x)) ∧
    (increment_attendance [bk1] 3 = (Except.error ApiError.bookingNotFound, [bk1]) ∧
     ApiError.bookingNotFound.statusCode = 404) :=
  ⟨(increment_attendance_spec [bk1] 1).2 bk1 rfl,
   (increment_attendance_spec [bk1] 3).1 rfl⟩

/-- C8: feedback submission fails with the BookingNotFound (404) response,
persisting nothing, when the referenced booking is absent; on success —
with no identity required — the created row is stamped with the current
instant and its location id is copied from the referenced booking.  The
caller's payload (FeedbackCreate) contains no location field at all, so
the location can never come from the caller. -/
theorem create_feedback_spec (bookings : List Booking)
    (feedback_rows : List Feedback) (booking_id : Nat) (f : FeedbackCreate)
    (now : Int) (new_id : Nat) :
    (bookings.find? (fun b => b.id == booking_id) = none →
      create_feedback bookings feedback_rows booking_id f now new_id =
        (Except.error ApiError.bookingNotFound, feedback_rows) ∧
      ApiError.bookingNotFound.statusCode = 404) ∧
    (∀ b, bookings.find? (fun b2 => b2.id == booking_id) = some b →
      create_feedback bookings feedback_rows booking_id f now new_id =
        (Except.ok ⟨new_id, now, f.title, f.comment, f.image_url, f.coords,
          b.location_id, booking_id⟩,
         feedback_rows ++ [⟨new_id, now, f.title, f.comment, f.image_url,
          f.coords, b.location_id, booking_id⟩])) := by
  constructor
  · intro h
    exact ⟨by simp [create_feedback, h], rfl⟩
  · intro b h
    simp [create_feedback, h]

/-- Witness for C8: submitting against the absent booking 9 fails; against
booking 1 the created row carries the instant 5000 and location 7 from the
booking. -/
theorem create_feedback_spec_witness :
    (create_feedback [bk1] [] 9 fc1 5000 1 =
       (Except.error ApiError.bookingNotFound, []) ∧
     ApiError.bookingNotFound.statusCode = 404) ∧
    create_feedback [bk1] [] 1 fc1 5000 1 =
      (Except.ok ⟨1, 5000, fc1.title, fc1.comment, fc1.image_url, fc1.coords,
        bk1.location_id, 1⟩,
       [⟨1, 5000, fc1.title, fc1.comment, fc1.image_url, fc1.coords,
        bk1.location_id, 1⟩]) :=
  ⟨(create_feedback_spec [bk1] [] 9 fc1 5000 1).1 rfl,
   (create_feedback_spec [bk1] [] 1 fc1 5000 1).2 bk1 rfl⟩

/-- C9 counterexample: the claim says a row timestamped exactly one day
after the query date is excluded, but the source's upper comparison is
`<=`, so the row at exactly `date_day + 1 day` is returned. -/
theorem feedback_window_upper_edge_included :
    fbEdge.datetime = 0 + daySecs ∧
    read_feedback [fbEdge] 3 0 = [fbEdge] ∧
    ¬ fbEdge.datetime < 0 + daySecs :=
  ⟨rfl, rfl, by decide⟩

/-- C9 (amended): the public feedback listing for location `L` and date
`D` returns exactly the rows whose location is `L` and whose timestamp
lies in the closed interval from `D - 30 days` to `D + 1 day`: both
boundaries are included. -/
theorem read_feedback_window (feedback_rows : List Feedback)
    (location_id : Nat) (date_day : Int) (fb : Feedback) :
    fb ∈ read_feedback feedback_rows location_id date_day ↔
      fb ∈ feedback_rows ∧ fb.location_id = location_id ∧
      date_day - 30 * daySecs ≤ fb.datetime ∧ fb.datetime ≤ date_day + daySecs := by
  simp [read_feedback, List.mem_filter, and_assoc, ge_iff_le]
  tauto

/-- Witness for C9 at a concrete input: the boundary row of location 3 is
listed for date 0 and satisfies the closed-interval description. -/
theorem read_feedback_window_witness :
    fbEdge ∈ read_feedback [fbEdge] 3 0 ↔
      fbEdge ∈ [fbEdge] ∧ fbEdge.location_id = 3 ∧
      0 - 30 * daySecs ≤ fbEdge.datetime ∧ fbEdge.datetime ≤ 0 + daySecs :=
  read_feedback_window [fbEdge] 3 0 fbEdge

/-- C10: local registration is rejected with the EmailAlreadyUsed (400)
response, persisting nothing, whenever any stored account carries the
submitted email — the lookup is by email alone, so third-party-provisioned
accounts with no password block local registration exactly like local
accounts. -/
theorem register_existing_email_rejected (users : List User) (email : String)
    (name : Option String) (pwd_hash : String) (new_id : Nat) (u : User)
    (hmem : u ∈ users) (hemail : u.email = email) :
    register_user users email name pwd_hash new_id =
      (Except.error ApiError.emailUsed, users) ∧
    ApiError.emailUsed.statusCode = 400 := by
  have hs : (get_user users email).isSome := by
    rw [get_user, List.find?_isSome]
    exact ⟨u, hmem, by simp [hemail]⟩
  refine ⟨?_, rfl⟩
  rcases hg : get_user users email with _ | v
  · rw [hg] at hs; simp at hs
  · simp [register_user, hg]

/-- Witness for C10: the store holds only the third-party-provisioned
account `uExt` (no password hash), and a local registration for the same
email is rejected. -/
theorem register_existing_email_rejected_witness :
    register_user [uExt] uExt.email none "somehash" 2 =
      (Except.error ApiError.emailUsed, [uExt]) ∧
    ApiError.emailUsed.statusCode = 400 :=
  register_existing_email_rejected [uExt] uExt.email none "somehash" 2 uExt
    (by simp) rfl

end CoastalClear
